import Mathlib

/-
Verification of the GiftLib frontend API client (src/lib/api.ts).

The file shallowly embeds the client's data model and operations:
localStorage as an association list, axios request/response interceptors as
pure functions, the error normalizer handleError as a function returning the
message of the Error it throws, and the endpoint wrappers as pipelines over
an abstract transport returning Except.
-/

namespace GiftLib

/-- JavaScript truthiness of an optional string: `undefined`/`null` and the
empty string are falsy, every other string is truthy. -/
def jsTruthy : Option String → Bool
  | none => false
  | some s => s ≠ ""

/-- The `data` object of a failed HTTP response, as read by `handleError`:
optional `detail` and `message` fields. -/
structure ErrData where
  detail : Option String
  message : Option String
deriving Repr, DecidableEq

/-- The `response` carried by an axios error: an HTTP status and an optional
structured body. -/
structure ErrResponse where
  status : Nat
  data : Option ErrData
deriving Repr, DecidableEq

/-- An axios error as observed by the response interceptor and by
`handleError`: an optional transport code (`ECONNABORTED`, `ERR_NETWORK`, ...),
an optional HTTP response, and the error's own message. -/
structure AxiosError where
  code : Option String
  response : Option ErrResponse
  message : Option String
deriving Repr, DecidableEq

/-- HTTP headers as an association list of name/value pairs. -/
abbrev Headers := List (String × String)

/-- `headers[k] = v`: JavaScript property assignment; the binding for `k`
replaces any previous one. -/
def setHeader (hs : Headers) (k v : String) : Headers :=
  (k, v) :: hs.filter (fun p => p.1 ≠ k)

/-- Read header `k`. -/
def getHeader (hs : Headers) (k : String) : Option String :=
  (hs.find? (fun p => p.1 = k)).map Prod.snd

/-- An axios request config as seen by the request interceptor: the source
guards on `config.headers` being truthy, so the headers object is optional. -/
structure Config where
  headers : Option Headers
deriving Repr, DecidableEq

/-- The headers actually sent for a config (no headers object means no
custom headers). -/
def Config.sentHeaders (c : Config) : Headers := c.headers.getD []

/-- The browser's localStorage, modelled as an association list from key to
stored string. -/
abbrev Storage := List (String × String)

/-- `localStorage.getItem(k)`: the stored string or null. -/
def getItem (st : Storage) (k : String) : Option String :=
  (st.find? (fun p => p.1 = k)).map Prod.snd

/-- `localStorage.setItem(k, v)`: last write wins. -/
def setItem (st : Storage) (k v : String) : Storage :=
  (k, v) :: st.filter (fun p => p.1 ≠ k)

/-- `localStorage.removeItem(k)`. -/
def removeItem (st : Storage) (k : String) : Storage :=
  st.filter (fun p => p.1 ≠ k)

/-- `apiService.setApiKey`: `localStorage.setItem('giftlib_api_key', apiKey)`. -/
def setApiKey (st : Storage) (apiKey : String) : Storage :=
  setItem st "giftlib_api_key" apiKey

/-- `apiService.getApiKey`: `localStorage.getItem('giftlib_api_key')`. -/
def getApiKey (st : Storage) : Option String :=
  getItem st "giftlib_api_key"

/-- `apiService.removeApiKey`: `localStorage.removeItem('giftlib_api_key')`. -/
def removeApiKey (st : Storage) : Storage :=
  removeItem st "giftlib_api_key"

/-- The request interceptor installed on the configured transport `api`:
reads the key from localStorage and, if `apiKey && config.headers` is truthy,
sets `config.headers['X-API-Key'] = apiKey`; otherwise returns the config
unchanged. -/
def requestInterceptor (st : Storage) (config : Config) : Config :=
  let apiKey := getItem st "giftlib_api_key"
  match apiKey, config.headers with
  | some k, some hs =>
      if k ≠ "" then { headers := some (setHeader hs "X-API-Key" k) }
      else config
  | _, _ => config

/-- Toast shown for `error.code === 'ECONNABORTED'`. -/
def timeoutToast : String :=
  "⏰ Request timed out. The server may be overloaded or unresponsive."

/-- Toast shown for `error.code === 'ERR_NETWORK'`. -/
def networkToast : String :=
  "🔌 Connection failed. Please check if the backend server is running."

/-- Toast shown for HTTP status 401. -/
def unauthorizedToast : String :=
  "🔐 Unauthorized. Please check your API key."

/-- Toast shown for HTTP status 403. -/
def forbiddenToast : String :=
  "🚫 Forbidden. You don\x27t have permission to access this resource."

/-- Toast shown for `error.response?.status >= 500`. -/
def serverToast : String :=
  "🔥 Server error. Please try again later."

/-- `error.response?.status === n` (false when there is no response). -/
def statusIs (e : AxiosError) (n : Nat) : Bool :=
  match e.response with
  | some r => r.status = n
  | none => false

/-- `error.response?.status >= 500` (false when there is no response, since
`undefined >= 500` is false in JavaScript). -/
def statusAtLeast500 (e : AxiosError) : Bool :=
  match e.response with
  | some r => 500 ≤ r.status
  | none => false

/-- The response interceptor installed on the configured transport `api`:
the if/else-if chain of toasts, followed by `Promise.reject(error)`. Returns
the list of toasts emitted and the re-raised error. -/
def responseInterceptor (error : AxiosError) : List String × AxiosError :=
  (if error.code = some "ECONNABORTED" then [timeoutToast]
   else if error.code = some "ERR_NETWORK" then [networkToast]
   else if statusIs error 401 then [unauthorizedToast]
   else if statusIs error 403 then [forbiddenToast]
   else if statusAtLeast500 error then [serverToast]
   else [], error)

/-- A successful axios response. -/
structure AxiosResponse (α : Type) where
  data : α
deriving Repr, DecidableEq

/-- `handleResponse`: return `response.data`. -/
def handleResponse {α : Type} (response : AxiosResponse α) : α :=
  response.data

/-- `error.response?.data?.detail`. -/
def dataDetail (e : AxiosError) : Option String :=
  (e.response.bind ErrResponse.data).bind ErrData.detail

/-- `error.response?.data?.message`. -/
def dataMsg (e : AxiosError) : Option String :=
  (e.response.bind ErrResponse.data).bind ErrData.message

/-- Message of the Error thrown by the final `else` branch of `handleError`. -/
def fallbackMessage : String := "An unexpected error occurred"

/-- `handleError`: the message of the `new Error(...)` it throws. Each guard
is a JavaScript truthiness test, so empty strings fall through. -/
def handleError (error : AxiosError) : String :=
  if jsTruthy (dataDetail error) then (dataDetail error).getD ""
  else if jsTruthy (dataMsg error) then (dataMsg error).getD ""
  else if jsTruthy error.message then error.message.getD ""
  else fallbackMessage

/-- One endpoint wrapper call over the configured transport `api`: the
request interceptor runs on the config, the transport produces a response or
an axios error, a failure passes through the response interceptor (emitting
toasts, re-raising) and is then normalized by `handleError` in the wrapper's
catch block. Returns the toasts emitted and the wrapper's outcome. -/
def apiRequest {α : Type} (st : Storage) (config : Config)
    (transport : Config → Except AxiosError (AxiosResponse α)) :
    List String × Except String α :=
  match transport (requestInterceptor st config) with
  | .ok r => ([], .ok (handleResponse r))
  | .error e =>
      let p := responseInterceptor e
      (p.1, .error (handleError p.2))

/-- One wrapper call over the bare `axios` transport (no interceptors):
failures are normalized by `handleError` but no toast is ever emitted. -/
def bareRequest {α : Type} (outcome : Except AxiosError (AxiosResponse α)) :
    List String × Except String α :=
  match outcome with
  | .ok r => ([], .ok (handleResponse r))
  | .error e => ([], .error (handleError e))

/-- The config of `axios.get(API_BASE_URL + "/")` in `healthCheck`: a default
config with no custom headers; no request interceptor ever touches it. -/
def healthCheckConfig : Config := { headers := some [] }

/-- The config of `axios.post(API_BASE_URL + "/api/users", formData)` in
`createUser`: default config, no custom headers, no interceptor. -/
def createUserConfig : Config := { headers := some [] }

/-- `healthCheck`: issues a request on the bare transport and normalizes the
outcome; the storage is never consulted. -/
def healthCheck {α : Type}
    (transport : Config → Except AxiosError (AxiosResponse α)) :
    List String × Except String α :=
  bareRequest (transport healthCheckConfig)

/-- Input of `createUser` (`CreateUserForm`). -/
structure CreateUserForm where
  email : String
  full_name : String
  company_name : Option String
deriving Repr, DecidableEq

/-- The FormData built by `createUser`: appends `email` and `full_name`, then
`company_name` only when `userData.company_name` is truthy. -/
def createUserFormData (userData : CreateUserForm) : List (String × String) :=
  let base := [("email", userData.email), ("full_name", userData.full_name)]
  match userData.company_name with
  | some c => if c ≠ "" then base ++ [("company_name", c)] else base
  | none => base

/-- `createUser`: builds the form, posts it on the bare transport, and
normalizes the outcome; the storage is never consulted. -/
def createUser {α : Type} (userData : CreateUserForm)
    (transport : Config → List (String × String) →
      Except AxiosError (AxiosResponse α)) :
    List String × Except String α :=
  bareRequest (transport createUserConfig (createUserFormData userData))

/-- Input of `updateEmailConfig` (`EmailConfig`). -/
structure EmailConfig where
  resend_api_key : String
  from_email : String
  sending_domain : Option String
deriving Repr, DecidableEq

/-- The FormData built by `updateEmailConfig`: appends `resend_api_key` and
`from_email`, then `sending_domain` only when `config.sending_domain` is
truthy. -/
def updateEmailConfigFormData (config : EmailConfig) : List (String × String) :=
  let base := [("resend_api_key", config.resend_api_key),
               ("from_email", config.from_email)]
  match config.sending_domain with
  | some d => if d ≠ "" then base ++ [("sending_domain", d)] else base
  | none => base

/-- A client-side timeout as axios produces it: code `ECONNABORTED`, no
response, the transport's timeout message. -/
def timeoutErr : AxiosError :=
  { code := some "ECONNABORTED", response := none,
    message := some "timeout of 30000ms exceeded" }

/-- A plain 404 failure as axios produces it. -/
def notFoundErr : AxiosError :=
  { code := some "ERR_BAD_REQUEST",
    response := some { status := 404, data := some { detail := none, message := none } },
    message := some "Request failed with status code 404" }

/-- A 401 failure as axios produces it. -/
def unauthorizedErr : AxiosError :=
  { code := some "ERR_BAD_REQUEST",
    response := some { status := 401, data := some { detail := none, message := none } },
    message := some "Request failed with status code 401" }

/-- A failed response whose body carries `detail = ""` and `message = "B"`. -/
def detailEmptyErr : AxiosError :=
  { code := none,
    response := some { status := 400,
                       data := some { detail := some "", message := some "B" } },
    message := none }

theorem getHeader_setHeader (hs : Headers) (k v : String) :
    getHeader (setHeader hs k v) k = some v := by
  simp [getHeader, setHeader, List.find?]

theorem find?_eq_key_of_filter_ne (l : List (String × String)) (k : String) :
    (l.filter fun p => p.1 ≠ k).find? (fun p => p.1 = k) = none := by
  induction l with
  | nil => rfl
  | cons p t ih =>
      by_cases h : p.1 = k
      · simp [List.filter_cons, h, ih]
      · simp [List.filter_cons, List.find?, h, ih]

theorem getItem_setItem_self (st : Storage) (k v : String) :
    getItem (setItem st k v) k = some v := by
  simp [getItem, setItem, List.find?]

theorem getItem_removeItem_self (st : Storage) (k : String) :
    getItem (removeItem st k) k = none := by
  simp [getItem, removeItem, find?_eq_key_of_filter_ne]

theorem requestInterceptor_attach (st : Storage) (cfg : Config) (hs : Headers)
    (k : String) (hk : getItem st "giftlib_api_key" = some k) (hne : k ≠ "")
    (hcfg : cfg.headers = some hs) :
    requestInterceptor st cfg = { headers := some (setHeader hs "X-API-Key" k) } := by
  unfold requestInterceptor
  rw [hk, hcfg]
  simp [hne]

theorem requestInterceptor_falsy (st : Storage) (cfg : Config)
    (h : jsTruthy (getItem st "giftlib_api_key") = false) :
    requestInterceptor st cfg = cfg := by
  unfold requestInterceptor
  rcases hk : getItem st "giftlib_api_key" with _ | k
  · rcases hcfg : cfg.headers with _ | hs <;> simp
  · rw [hk] at h
    simp [jsTruthy] at h
    rcases hcfg : cfg.headers with _ | hs <;> simp [h]

/-- C8: for every string s, setApiKey s then getApiKey returns s, and
removeApiKey then getApiKey returns none, regardless of prior store
contents. -/
theorem C8_credential_roundtrip (st : Storage) (s : String) :
    getApiKey (setApiKey st s) = some s ∧
    getApiKey (removeApiKey st) = none := by
  constructor
  · exact getItem_setItem_self st "giftlib_api_key" s
  · exact getItem_removeItem_self st "giftlib_api_key"

/-- C1 counterexample: store the empty-string credential. getApiKey reports a
credential is stored (`some ""`), yet the request interceptor leaves the
config untouched and the outgoing request carries no X-API-Key header,
because the source's `if (apiKey && config.headers)` treats the empty string
as falsy. -/
theorem C1_counterexample :
    getApiKey (setApiKey [] "") = some "" ∧
    requestInterceptor (setApiKey [] "") { headers := some [] } =
      { headers := some [] } ∧
    getHeader (requestInterceptor (setApiKey [] "")
        { headers := some [] }).sentHeaders "X-API-Key" = none := by
  refine ⟨rfl, rfl, rfl⟩

/-- C1 (amended): for every request config carrying a headers object that
does not already contain X-API-Key, if a NON-EMPTY credential k is stored
then the outgoing request carries X-API-Key equal to k; if the stored
credential is falsy (absent or the empty string) the interceptor returns the
config unchanged, so the X-API-Key header is absent. -/
theorem C1_header_attachment (st : Storage) (cfg : Config) (hs : Headers)
    (hcfg : cfg.headers = some hs)
    (hfresh : getHeader hs "X-API-Key" = none) :
    (∀ k, getApiKey st = some k → k ≠ "" →
      getHeader (requestInterceptor st cfg).sentHeaders "X-API-Key" = some k) ∧
    (jsTruthy (getApiKey st) = false →
      requestInterceptor st cfg = cfg ∧
      getHeader (requestInterceptor st cfg).sentHeaders "X-API-Key" = none) := by
  constructor
  · intro k hk hne
    rw [requestInterceptor_attach st cfg hs k hk hne hcfg]
    simpa [Config.sentHeaders] using getHeader_setHeader hs "X-API-Key" k
  · intro hfalsy
    have hid := requestInterceptor_falsy st cfg hfalsy
    refine ⟨hid, ?_⟩
    rw [hid]
    simpa [Config.sentHeaders, hcfg] using hfresh

/-- Witness for C1_header_attachment at a concrete store and config. -/
theorem C1_header_attachment_witness :
    ({ headers := some [] } : Config).headers = some ([] : Headers) ∧
    getHeader ([] : Headers) "X-API-Key" = none ∧
    getHeader (requestInterceptor (setApiKey [] "k1")
        { headers := some [] }).sentHeaders "X-API-Key" = some "k1" :=
  ⟨rfl, rfl,
    (C1_header_attachment (setApiKey [] "k1") { headers := some [] } [] rfl
      rfl).1 "k1" (by decide) (by decide)⟩

/-- C7 counterexample: with the empty string stored as the credential, a
request issued via the configured transport does NOT carry the X-API-Key
header, so the header is not attached to every configured-transport request
while a credential is stored. -/
theorem C7_counterexample :
    getApiKey [("giftlib_api_key", "")] = some "" ∧
    getHeader (requestInterceptor [("giftlib_api_key", "")]
        { headers := some [("Accept", "application/json")] }).sentHeaders
      "X-API-Key" = none := by
  refine ⟨rfl, rfl⟩

/-- C7 (amended): a stored NON-EMPTY credential is attached as X-API-Key to
every request issued via the configured transport, while the health-check and
user-creation requests go through the bare transport with a default config
whose sent headers never contain X-API-Key, whatever is stored. -/
theorem C7_transport_split (st : Storage) (k : String) (cfg : Config)
    (hs : Headers) (hk : getApiKey st = some k) (hne : k ≠ "")
    (hcfg : cfg.headers = some hs) :
    getHeader (requestInterceptor st cfg).sentHeaders "X-API-Key" = some k ∧
    getHeader healthCheckConfig.sentHeaders "X-API-Key" = none ∧
    getHeader createUserConfig.sentHeaders "X-API-Key" = none := by
  refine ⟨?_, rfl, rfl⟩
  rw [requestInterceptor_attach st cfg hs k hk hne hcfg]
  simpa [Config.sentHeaders] using getHeader_setHeader hs "X-API-Key" k

/-- Witness for C7_transport_split at a concrete store and config. -/
theorem C7_transport_split_witness :
    getApiKey [("giftlib_api_key", "secret")] = some "secret" ∧
    ("secret" : String) ≠ "" ∧
    getHeader (requestInterceptor [("giftlib_api_key", "secret")]
        { headers := some [] }).sentHeaders "X-API-Key" = some "secret" :=
  ⟨rfl, by decide,
    (C7_transport_split [("giftlib_api_key", "secret")] "secret"
      { headers := some [] } [] rfl (by decide) rfl).1⟩

/-- C2: the response interceptor re-raises the error object unchanged, emits
at most one notification, and classifies the failure by the priority order
timeout, network, 401, 403, 5xx (the code's test `status >= 500`, which every
5xx status satisfies); when no category matches, no notification is
emitted. -/
theorem C2_classification (e : AxiosError) :
    (responseInterceptor e).2 = e ∧
    (responseInterceptor e).1.length ≤ 1 ∧
    (e.code = some "ECONNABORTED" →
      (responseInterceptor e).1 = [timeoutToast]) ∧
    (e.code ≠ some "ECONNABORTED" → e.code = some "ERR_NETWORK" →
      (responseInterceptor e).1 = [networkToast]) ∧
    (e.code ≠ some "ECONNABORTED" → e.code ≠ some "ERR_NETWORK" →
      statusIs e 401 = true →
      (responseInterceptor e).1 = [unauthorizedToast]) ∧
    (e.code ≠ some "ECONNABORTED" → e.code ≠ some "ERR_NETWORK" →
      statusIs e 401 = false → statusIs e 403 = true →
      (responseInterceptor e).1 = [forbiddenToast]) ∧
    (e.code ≠ some "ECONNABORTED" → e.code ≠ some "ERR_NETWORK" →
      statusIs e 401 = false → statusIs e 403 = false →
      statusAtLeast500 e = true →
      (responseInterceptor e).1 = [serverToast]) ∧
    (e.code ≠ some "ECONNABORTED" → e.code ≠ some "ERR_NETWORK" →
      statusIs e 401 = false → statusIs e 403 = false →
      statusAtLeast500 e = false →
      (responseInterceptor e).1 = []) := by
  unfold responseInterceptor
  refine ⟨rfl, ?_, ?_, ?_, ?_, ?_, ?_, ?_⟩
  · split_ifs <;> simp
  · intro h1
    simp [h1]
  · intro h1 h2
    simp [h1, h2]
  · intro h1 h2 h3
    simp [h1, h2, h3]
  · intro h1 h2 h3 h4
    simp [h1, h2, h3, h4]
  · intro h1 h2 h3 h4 h5
    simp [h1, h2, h3, h4, h5]
  · intro h1 h2 h3 h4 h5
    simp [h1, h2, h3, h4, h5]

/-- Witness for C2_classification at a concrete 401 failure. -/
theorem C2_classification_witness :
    (responseInterceptor unauthorizedErr).1 = [unauthorizedToast] :=
  (C2_classification unauthorizedErr).2.2.2.2.1 (by decide) (by decide)
    (by decide)

/-- C3 counterexample: a failure whose body has `detail` present as the empty
string and `message = "B"`. The claim's precedence ("detail if present")
gives "", but handleError surfaces "B": the code's guard is truthiness, not
presence. -/
theorem C3_counterexample :
    dataDetail detailEmptyErr = some "" ∧
    dataMsg detailEmptyErr = some "B" ∧
    handleError detailEmptyErr = "B" := by
  refine ⟨rfl, rfl, rfl⟩

/-- C3 (amended): handleError picks the message by precedence over TRUTHY
(present and non-empty) fields: response.data.detail, then
response.data.message, then the error's own message, else the generic
fallback; in particular detail = "A" with message = "B" surfaces "A". -/
theorem C3_message_precedence (e : AxiosError) :
    (∀ d, dataDetail e = some d → d ≠ "" → handleError e = d) ∧
    (∀ m, jsTruthy (dataDetail e) = false → dataMsg e = some m → m ≠ "" →
      handleError e = m) ∧
    (∀ m, jsTruthy (dataDetail e) = false → jsTruthy (dataMsg e) = false →
      e.message = some m → m ≠ "" → handleError e = m) ∧
    (jsTruthy (dataDetail e) = false → jsTruthy (dataMsg e) = false →
      jsTruthy e.message = false → handleError e = fallbackMessage) := by
  refine ⟨?_, ?_, ?_, ?_⟩
  · intro d hd hne
    have ht : jsTruthy (some d) = true := by simp [jsTruthy, hne]
    simp [handleError, hd, ht]
  · intro m hfd hm hne
    have ht : jsTruthy (some m) = true := by simp [jsTruthy, hne]
    simp [handleError, hfd, hm, ht]
  · intro m hfd hfm hm hne
    have ht : jsTruthy (some m) = true := by simp [jsTruthy, hne]
    simp [handleError, hfd, hfm, hm, ht]
  · intro hfd hfm hfe
    simp [handleError, hfd, hfm, hfe]

/-- Witness for C3_message_precedence: detail "A" and message "B" surface
"A". -/
theorem C3_message_precedence_witness :
    handleError
      { code := none,
        response := some { status := 400,
                           data := some { detail := some "A",
                                          message := some "B" } },
        message := none } = "A" :=
  (C3_message_precedence _).1 "A" rfl (by decide)

/-- C4: a timed-out request through the configured transport produces exactly
the one timeout notification, and the wrapper raises a normalized error
whose message falls through to the transport's own timeout message (or the
generic fallback when the transport message is falsy), since a timeout
carries no response body. -/
theorem C4_timeout_pipeline {α : Type} (st : Storage) (cfg : Config)
    (transport : Config → Except AxiosError (AxiosResponse α)) (e : AxiosError)
    (htr : transport (requestInterceptor st cfg) = .error e)
    (hcode : e.code = some "ECONNABORTED") (hresp : e.response = none) :
    apiRequest st cfg transport = ([timeoutToast], .error (handleError e)) ∧
    (∀ m, e.message = some m → m ≠ "" → handleError e = m) ∧
    (jsTruthy e.message = false → handleError e = fallbackMessage) := by
  refine ⟨?_, ?_, ?_⟩
  · simp [apiRequest, htr, responseInterceptor, hcode]
  · intro m hm hne
    simp [handleError, dataDetail, dataMsg, hresp, hm, jsTruthy, hne]
  · intro hfe
    have h1 : jsTruthy (dataDetail e) = false := by
      simp [dataDetail, hresp, jsTruthy]
    have h2 : jsTruthy (dataMsg e) = false := by
      simp [dataMsg, hresp, jsTruthy]
    simp [handleError, h1, h2, hfe]

/-- Witness for C4_timeout_pipeline at a concrete timeout. -/
theorem C4_timeout_pipeline_witness :
    apiRequest ([] : Storage) { headers := some [] }
        (fun _ => (.error timeoutErr : Except AxiosError (AxiosResponse Unit)))
      = ([timeoutToast], .error "timeout of 30000ms exceeded") ∧
    handleError timeoutErr = "timeout of 30000ms exceeded" := by
  have h := C4_timeout_pipeline ([] : Storage) { headers := some [] }
    (fun _ => (.error timeoutErr : Except AxiosError (AxiosResponse Unit)))
    timeoutErr rfl rfl rfl
  have hm := h.2.1 "timeout of 30000ms exceeded" rfl (by decide)
  refine ⟨?_, hm⟩
  rw [h.1, hm]

/-- C5: a failure with an HTTP response whose status is 4xx but neither 401
nor 403 (e.g. 404), and which is not a client-side timeout or network
failure, produces zero notifications, while the wrapper still raises the
normalized error. -/
theorem C5_unclassified_4xx {α : Type} (st : Storage) (cfg : Config)
    (transport : Config → Except AxiosError (AxiosResponse α)) (e : AxiosError)
    (r : ErrResponse)
    (htr : transport (requestInterceptor st cfg) = .error e)
    (hct : e.code ≠ some "ECONNABORTED") (hcn : e.code ≠ some "ERR_NETWORK")
    (hresp : e.response = some r) (h4 : 400 ≤ r.status) (h5 : r.status < 500)
    (h401 : r.status ≠ 401) (h403 : r.status ≠ 403) :
    apiRequest st cfg transport = ([], .error (handleError e)) := by
  have hs401 : statusIs e 401 = false := by
    simp [statusIs, hresp, h401]
  have hs403 : statusIs e 403 = false := by
    simp [statusIs, hresp, h403]
  have hs500 : statusAtLeast500 e = false := by
    simp [statusAtLeast500, hresp]
    omega
  simp [apiRequest, htr, responseInterceptor, hct, hcn, hs401, hs403, hs500]

/-- Witness for C5_unclassified_4xx at a concrete 404. -/
theorem C5_unclassified_4xx_witness :
    apiRequest ([] : Storage) { headers := some [] }
        (fun _ => (.error notFoundErr : Except AxiosError (AxiosResponse Unit)))
      = ([], .error "Request failed with status code 404") ∧
    handleError notFoundErr = "Request failed with status code 404" := by
  have h := C5_unclassified_4xx ([] : Storage) { headers := some [] }
    (fun _ => (.error notFoundErr : Except AxiosError (AxiosResponse Unit)))
    notFoundErr { status := 404, data := some { detail := none, message := none } }
    rfl (by decide) (by decide) rfl (by decide) (by decide) (by decide)
    (by decide)
  have hm : handleError notFoundErr = "Request failed with status code 404" := rfl
  refine ⟨?_, hm⟩
  rw [h, hm]

/-- C6: createUser appends exactly the fields email, full_name and
(when provided and truthy) company_name, in that order; updateEmailConfig
appends exactly resend_api_key, from_email and (when provided and truthy)
sending_domain; absent optionals are omitted. -/
theorem C6_form_field_names (f : CreateUserForm) (c : EmailConfig) :
    (f.company_name = none →
      createUserFormData f = [("email", f.email), ("full_name", f.full_name)]) ∧
    (∀ s, f.company_name = some s → s ≠ "" →
      createUserFormData f =
        [("email", f.email), ("full_name", f.full_name), ("company_name", s)]) ∧
    (c.sending_domain = none →
      updateEmailConfigFormData c =
        [("resend_api_key", c.resend_api_key), ("from_email", c.from_email)]) ∧
    (∀ s, c.sending_domain = some s → s ≠ "" →
      updateEmailConfigFormData c =
        [("resend_api_key", c.resend_api_key), ("from_email", c.from_email),
         ("sending_domain", s)]) := by
  refine ⟨?_, ?_, ?_, ?_⟩
  · intro h
    simp [createUserFormData, h]
  · intro s hs hne
    simp [createUserFormData, hs, hne]
  · intro h
    simp [updateEmailConfigFormData, h]
  · intro s hs hne
    simp [updateEmailConfigFormData, hs, hne]

/-- Witness for C6_form_field_names at concrete inputs. -/
theorem C6_form_field_names_witness :
    createUserFormData { email := "a@b.c", full_name := "Ann", company_name := none }
      = [("email", "a@b.c"), ("full_name", "Ann")] ∧
    updateEmailConfigFormData
        { resend_api_key := "rk", from_email := "x@y.z", sending_domain := some "y.z" }
      = [("resend_api_key", "rk"), ("from_email", "x@y.z"), ("sending_domain", "y.z")] :=
  ⟨(C6_form_field_names
      { email := "a@b.c", full_name := "Ann", company_name := none }
      { resend_api_key := "rk", from_email := "x@y.z", sending_domain := some "y.z" }).1
      rfl,
   (C6_form_field_names
      { email := "a@b.c", full_name := "Ann", company_name := none }
      { resend_api_key := "rk", from_email := "x@y.z", sending_domain := some "y.z" }).2.2.2
      "y.z" rfl (by decide)⟩

/-- C9: any failure of healthCheck or createUser produces zero notifications
(the bare transport has no response interceptor), yet each still raises the
normalized error produced by handleError. -/
theorem C9_bare_transport_failures {α β : Type} (f : CreateUserForm)
    (tr₁ : Config → Except AxiosError (AxiosResponse α))
    (tr₂ : Config → List (String × String) → Except AxiosError (AxiosResponse β))
    (e₁ e₂ : AxiosError)
    (h1 : tr₁ healthCheckConfig = .error e₁)
    (h2 : tr₂ createUserConfig (createUserFormData f) = .error e₂) :
    healthCheck tr₁ = ([], .error (handleError e₁)) ∧
    createUser f tr₂ = ([], .error (handleError e₂)) := by
  constructor
  · simp [healthCheck, bareRequest, h1]
  · simp [createUser, bareRequest, h2]

/-- Witness for C9_bare_transport_failures at a 401 failure, precisely one
that the configured transport's interceptor would have turned into a toast. -/
theorem C9_bare_transport_failures_witness :
    (responseInterceptor unauthorizedErr).1 = [unauthorizedToast] ∧
    healthCheck (fun _ =>
        (.error unauthorizedErr : Except AxiosError (AxiosResponse Unit)))
      = ([], .error "Request failed with status code 401") ∧
    createUser { email := "a@b.c", full_name := "Ann", company_name := none }
        (fun _ _ =>
          (.error unauthorizedErr : Except AxiosError (AxiosResponse Unit)))
      = ([], .error "Request failed with status code 401") := by
  have h := C9_bare_transport_failures
    { email := "a@b.c", full_name := "Ann", company_name := none }
    (fun _ => (.error unauthorizedErr : Except AxiosError (AxiosResponse Unit)))
    (fun _ _ => (.error unauthorizedErr : Except AxiosError (AxiosResponse Unit)))
    unauthorizedErr unauthorizedErr rfl rfl
  have hm : handleError unauthorizedErr = "Request failed with status code 401" := rfl
  refine ⟨rfl, ?_, ?_⟩
  · rw [h.1, hm]
  · rw [h.2, hm]

/-- C10: a company_name or sending_domain supplied as the empty string (a
falsy value) is omitted from the form exactly as an absent one is. -/
theorem C10_empty_string_omitted (f : CreateUserForm) (c : EmailConfig)
    (hf : f.company_name = some "") (hc : c.sending_domain = some "") :
    createUserFormData f = [("email", f.email), ("full_name", f.full_name)] ∧
    updateEmailConfigFormData c =
      [("resend_api_key", c.resend_api_key), ("from_email", c.from_email)] := by
  constructor
  · simp [createUserFormData, hf]
  · simp [updateEmailConfigFormData, hc]

/-- Witness for C10_empty_string_omitted at concrete inputs with explicit
empty strings. -/
theorem C10_empty_string_omitted_witness :
    createUserFormData { email := "a@b.c", full_name := "Ann", company_name := some "" }
      = [("email", "a@b.c"), ("full_name", "Ann")] ∧
    updateEmailConfigFormData
        { resend_api_key := "rk", from_email := "x@y.z", sending_domain := some "" }
      = [("resend_api_key", "rk"), ("from_email", "x@y.z")] :=
  C10_empty_string_omitted
    { email := "a@b.c", full_name := "Ann", company_name := some "" }
    { resend_api_key := "rk", from_email := "x@y.z", sending_domain := some "" }
    rfl rfl

end GiftLib
